import Mathlib

/-!
# Verification of the awsdeploy deployment orchestrator

A shallow embedding of `awsdeploy.py` (and its driver `example.py`):
the step-pipeline engine (`AwsDeployExpert.deploy` and its seven steps),
the archive builder (`makePySrcPackage`, `addPackageLibs`, `appendZipToZip`),
and the stack-provisioning poll loop (`getStackOutputs`).

External collaborators (the AWS clients, the filesystem walk, the unit-test
runner) are modelled as explicit parameters: a directory walk is the list of
`(root, files)` pairs that `os.walk` would yield, the CloudFormation
`describe_stacks` responses are a scripted stream, and side effects
(archive writes, uploads, stack creation, sleeps) are recorded in an
explicit effect trace.

Python strings are Lean `String`s; the Python string operations the source
uses (`in`, `endswith`, `replace`, `os.path.join`, slicing, `split`) are
defined below on the underlying character lists, mirroring Python semantics.
-/

namespace AwsDeploy

/-! ## Python string primitives -/

/-- Python `needle in haystack` (substring containment) on character lists:
the empty needle is contained in everything. -/
def strIn : List Char → List Char → Bool
  | [], _ => true
  | n :: ns, [] => false && (n :: ns).isEmpty
  | n :: ns, h :: hs => ((n :: ns).isPrefixOf (h :: hs)) || strIn (n :: ns) hs

/-- Python `s.endswith(suffix)`. -/
def pyEndsWith (s suffix : String) : Bool :=
  suffix.data.isSuffixOf s.data

/-- Python `s in t` on `String`. -/
def pyIn (needle haystack : String) : Bool :=
  strIn needle.data haystack.data

/-- Python `s.replace(pat, rep)` on character lists: replaces every
non-overlapping occurrence left to right.  (With an empty pattern Python
intersperses `rep`; the source only ever calls `replace` with the
replacement `''`, for which the empty-pattern behaviour is the identity,
which is what this returns.) -/
def pyReplaceAux : List Char → List Char → List Char → List Char
  | [], _, _ => []
  | c :: rest, pat, rep =>
    if h : pat ≠ [] ∧ pat.isPrefixOf (c :: rest) then
      rep ++ pyReplaceAux ((c :: rest).drop pat.length) pat rep
    else
      c :: pyReplaceAux rest pat rep
termination_by s _ _ => s.length
decreasing_by
  · simp only [List.length_drop]
    have hpat : 0 < pat.length := List.length_pos.mpr h.1
    simp only [List.length_cons]
    omega
  · simp

/-- Python `s.replace(pat, rep)` on `String`. -/
def pyReplace (s pat rep : String) : String :=
  String.mk (pyReplaceAux s.data pat.data rep.data)

/-- Python `os.path.join(a, b)` (posix): `b` absolute wins; otherwise a
separator is inserted unless `a` is empty or already ends in one. -/
def pyJoin (a b : String) : String :=
  if b.data.head? = some '/' then b
  else if a = "" then b
  else if a.data.getLast? = some '/' then a ++ b
  else a ++ "/" ++ b

/-- Python `s.split(sep)` for a single-character separator. -/
def pySplitAux (sep : Char) : List Char → List Char → List (List Char)
  | [], acc => [acc.reverse]
  | c :: rest, acc =>
    if c = sep then acc.reverse :: pySplitAux sep rest []
    else pySplitAux sep rest (c :: acc)

/-- Python `s.split(sep)[-1]` for a single-character separator: the text
after the last separator. -/
def pySplitLast (s : String) (sep : Char) : String :=
  String.mk ((pySplitAux sep s.data []).getLastD [])

/-- Python truthiness of an optional string: `None` and `''` are falsy. -/
def optStrTruthy : Option String → Bool
  | none => false
  | some s => s ≠ ""

/-- Python `d.get(k, default)` for an optional boolean option. -/
def optGet (v : Option Bool) (dflt : Bool) : Bool :=
  v.getD dflt

/-! ## Constants of `awsdeploy.py` -/

def DEFAULTS_RUN_UNIT_TESTS : Bool := true
def DEFAULTS_MAKE_PACKAGES : Bool := true
def DEFAULTS_UPLOAD_PACKAGES : Bool := true
def DEFAULTS_CREATE_STACKS : Bool := true
def DEFAULTS_COLLECT_STACK_OUTPUTS : Bool := true
def DEFAULTS_UPLOAD_STATIC_ARTIFACTS : Bool := false

def COMPILED_PYTHON_EXTENSION : String := ".pyc"
def ZIPFILE_EXTENSION : String := ".zip"
def INIT_FILENAME : String := "__init__.py"
def PYSRC_DIRS_ALWAYS_EXCLUDE : List String := ["tests", "__pycache__"]
def AWS_CLOUDFORMATION_CREATE_COMPLETE : String := "CREATE_COMPLETE"
def AWS_CLOUDFORMATION_CREATE_IN_PROGRESS : String := "CREATE_IN_PROGRESS"

/-- `AWS_COLLECT_OUTPUTS_CONFIG = { "Timeout": 50, "SleepSeconds": 5 }`. -/
structure CollectOutputsConfig where
  Timeout : Nat
  SleepSeconds : Nat

def AWS_COLLECT_OUTPUTS_CONFIG : CollectOutputsConfig :=
  { Timeout := 50, SleepSeconds := 5 }

/-- `class Status(Enum): OK = 1; FAILED = 2; SKIPPED = 3`. -/
inductive Status where
  | OK
  | FAILED
  | SKIPPED
deriving DecidableEq, Repr

/-! ## Stack provisioner: `getStackOutputs` (the output-collection poll loop)

`describe_stacks` responses are modelled as a scripted stream
`script : Nat → StackDesc`; call `i` returns `script i`. -/

/-- One `{OutputKey, OutputValue}` pair of a stack's `Outputs` list. -/
structure OutputKV where
  OutputKey : String
  OutputValue : String
deriving DecidableEq, Repr

/-- The part of a `describe_stacks` response the loop reads:
`stackDesc["Stacks"][0]["StackStatus"]` and `...["Outputs"]`. -/
structure StackDesc where
  StackStatus : String
  Outputs : List OutputKV
deriving DecidableEq, Repr

/-- Outcome of `getStackOutputs`: either the function returns its
`stackOutputs` variable (`none` when the loop ends by budget exhaustion,
since `stackOutputs` is initialised to Python `None`), or it raises the
raw `stackDesc`.  `sleeps` counts the `time.sleep` calls made. -/
inductive GsoResult where
  | returned (stackOutputs : Option (List OutputKV)) (sleeps : Nat)
  | raised (stackDesc : StackDesc) (sleeps : Nat)
deriving DecidableEq, Repr

/-- Number of sleep intervals the run performed. -/
def GsoResult.sleeps : GsoResult → Nat
  | .returned _ s => s
  | .raised _ s => s

/-- Whether the run ended by raising. -/
def GsoResult.isRaised : GsoResult → Bool
  | .returned _ _ => false
  | .raised _ _ => true

/-- Whether the run returned an actual outputs list (a success result). -/
def GsoResult.isSuccess : GsoResult → Bool
  | .returned (some _) _ => true
  | .returned none _ => false
  | .raised _ _ => false

/-- The `while elapsedSeconds < timeoutSeconds` loop of `getStackOutputs`:
on `CREATE_COMPLETE` return the response's outputs; on
`CREATE_IN_PROGRESS` add `sleepSeconds` to the elapsed time, sleep, and
retry; on any other status `raise stackDesc`.  When the guard fails the
function returns `stackOutputs`, still `None`. -/
def getStackOutputsAux (script : Nat → StackDesc) (i elapsedSeconds sleeps : Nat) :
    GsoResult :=
  if elapsedSeconds < AWS_COLLECT_OUTPUTS_CONFIG.Timeout then
    let stackDesc := script i
    if stackDesc.StackStatus = AWS_CLOUDFORMATION_CREATE_COMPLETE then
      .returned (some stackDesc.Outputs) sleeps
    else if stackDesc.StackStatus = AWS_CLOUDFORMATION_CREATE_IN_PROGRESS then
      getStackOutputsAux script (i + 1)
        (elapsedSeconds + AWS_COLLECT_OUTPUTS_CONFIG.SleepSeconds) (sleeps + 1)
    else
      .raised stackDesc sleeps
  else
    .returned none sleeps
termination_by AWS_COLLECT_OUTPUTS_CONFIG.Timeout - elapsedSeconds
decreasing_by
  simp only [AWS_COLLECT_OUTPUTS_CONFIG] at *
  omega

/-- `getStackOutputs(cf_client, stackName)` with the `describe_stacks`
responses scripted: `timeoutSeconds = 50`, `sleepSeconds = 5`,
`elapsedSeconds = 0`, `stackOutputs = None`. -/
def getStackOutputs (script : Nat → StackDesc) : GsoResult :=
  getStackOutputsAux script 0 0 0

/-! ## Archive builder

A filesystem directory tree is modelled by the result of `os.walk`: the
list of `(root, files)` pairs it yields (the `dirs` component is unused by
the source).  A zip archive is its ordered list of entries. -/

/-- An entry of the archive produced by `makePySrcPackage`: the name it is
stored under (`arcname`) and the path of the source file written there. -/
structure SrcZipEntry where
  arcname : String
  srcPath : String
deriving DecidableEq, Repr

/-- An entry of a zip archive as `appendZipToZip` sees it: a name, opaque
byte content, and the `ZipInfo` attributes the source sets
(`create_system`, `external_attr`). -/
structure ZipEntry where
  filename : String
  content : String
  create_system : Nat
  external_attr : Nat
deriving DecidableEq, Repr

/-- The inner `_filterFunc(root_, file_, excludeDirs_)` of
`makePySrcPackage`: skip when any name of
`PYSRC_DIRS_ALWAYS_EXCLUDE + excludeDirs_` occurs in `root_`
(Python substring containment), or when `file_` ends with `.pyc`. -/
def filterFunc (excludeDirs : List String) (root file : String) : Bool :=
  let foldersToSkip := PYSRC_DIRS_ALWAYS_EXCLUDE ++ excludeDirs
  if foldersToSkip.any (fun fldName => pyIn fldName root) then false
  else if pyEndsWith file COMPILED_PYTHON_EXTENSION then false
  else true

/-- The body of `makePySrcPackage`'s nested walk loop: for each yielded
`(root, files)` pair, write each surviving file under
`arcname = os.path.join(root.replace(pySrcPath, ''), file)`. -/
def makePySrcPackageLoop (pySrcPath : String) (excludeDirs : List String) :
    List (String × List String) → List SrcZipEntry → List SrcZipEntry
  | [], zh => zh
  | (root, files) :: restWalk, zh =>
    let zh := files.foldl (fun zh file =>
      if filterFunc excludeDirs root file then
        zh ++ [{ arcname := pyJoin (pyReplace root pySrcPath "") file,
                 srcPath := pyJoin root file }]
      else zh) zh
    makePySrcPackageLoop pySrcPath excludeDirs restWalk zh

/-- `makePySrcPackage(zipPackageName, pySrcPath, excludeDirs, addInit)`:
returns the Python return value (`zipPackageName`) and the entries of the
archive it wrote.  `walk` is what `os.walk(pySrcPath)` yields. -/
def makePySrcPackage (zipPackageName pySrcPath : String)
    (walk : List (String × List String)) (excludeDirs : List String)
    (addInit : Bool) : String × List SrcZipEntry :=
  let zh := makePySrcPackageLoop pySrcPath excludeDirs walk []
  let zh := if addInit then
      zh ++ [{ arcname := INIT_FILENAME, srcPath := pyJoin pySrcPath INIT_FILENAME }]
    else zh
  (zipPackageName, zh)

/-- The fresh `ZipInfo` that `appendZipToZip` builds for a copied entry:
`create_system = 3` (Unix) and `external_attr = 0o777 << 16`
(chmod 777 on the file). -/
def stampZipInfo (t : ZipEntry) : ZipEntry :=
  { filename := t.filename, content := t.content,
    create_system := 3, external_attr := 0o777 <<< 16 }

/-- `z1.writestr(zip_info, data)`: appends one entry to the archive. -/
def writestr (z1 : List ZipEntry) (e : ZipEntry) : List ZipEntry :=
  z1 ++ [e]

/-- `appendZipToZip(zipFileAppendTo, zipFileAppendFrom)`: copies every
entry of the second archive into the first via `writestr`, stamping each
with the fresh `ZipInfo`; returns `Status.OK`. -/
def appendZipToZip (zipFileAppendTo zipFileAppendFrom : List ZipEntry) :
    List ZipEntry × Status :=
  (zipFileAppendFrom.foldl (fun z1 t => writestr z1 (stampZipInfo t))
    zipFileAppendTo, Status.OK)

/-- The skip test of `addPackageLibs`'s loop:
`(includeLibs and file not in includeLibs) or (excludeLibs and file in excludeLibs)`
with Python truthiness of the lists (`None`/empty are falsy; both model as `[]`). -/
def libSkipped (excludeLibs includeLibs : List String) (file : String) : Bool :=
  (!includeLibs.isEmpty && !includeLibs.contains file)
    || (!excludeLibs.isEmpty && excludeLibs.contains file)

/-- `addPackageLibs(zipPackageName, pyLibsPath, excludeLibs, includeLibs)`:
walks the library root; files not ending in `.zip` are skipped, then the
include/exclude test is applied; each surviving library archive is
appended to the target with `appendZipToZip`.  `libWalk` is what
`os.walk(pyLibsPath)` yields and `zipContents` maps a library archive's
path to its entries.  Returns the accumulated target entries, the append
effects (one per surviving library), and `Status.OK`. -/
def addPackageLibsLoop (zipPackageName : String)
    (zipContents : String → List ZipEntry) (excludeLibs includeLibs : List String) :
    List (String × List String) → List ZipEntry → List (String × String) →
      List ZipEntry × List (String × String)
  | [], target, appends => (target, appends)
  | (root, files) :: restWalk, target, appends =>
    let (target, appends) := files.foldl (fun acc file =>
      if !pyEndsWith file ZIPFILE_EXTENSION then acc
      else if libSkipped excludeLibs includeLibs file then acc
      else
        let zipFileAppendFrom := pyJoin root file
        ((appendZipToZip acc.1 (zipContents zipFileAppendFrom)).1,
         acc.2 ++ [(zipPackageName, zipFileAppendFrom)])) (target, appends)
    addPackageLibsLoop zipPackageName zipContents excludeLibs includeLibs
      restWalk target appends

/-- `addPackageLibs` itself; the target archive's existing entries are
given by `target` (the file is opened in append mode). -/
def addPackageLibs (zipPackageName : String) (target : List ZipEntry)
    (libWalk : List (String × List String)) (zipContents : String → List ZipEntry)
    (excludeLibs includeLibs : List String) :
    (List ZipEntry × List (String × String)) × Status :=
  (addPackageLibsLoop zipPackageName zipContents excludeLibs includeLibs
    libWalk target [], Status.OK)

/-! ## Configuration

The `config` dictionary of `AwsDeployExpert`; every `.get(k, default)`
access is modelled by an `Option` field (`none` = key absent) read through
`optGet`/`optStrTruthy`/`getD`.  List-valued keys default to `[]`. -/

/-- The `"options"` sub-dictionary of the configuration. -/
structure Options where
  runUnitTests : Option Bool := none
  makePackages : Option Bool := none
  uploadPackages : Option Bool := none
  createStacks : Option Bool := none
  collectStackOutputs : Option Bool := none
  uploadStaticArtifacts : Option Bool := none
deriving DecidableEq, Repr

/-- One package spec's `"aws"` sub-dictionary. -/
structure PackageAws where
  srcS3Bucket : Option String := none
  srcS3Key : Option String := none
deriving DecidableEq, Repr

/-- One entry of the configuration's `"packages"` list. -/
structure PackageSpec where
  name : Option String := none
  sourceDirsToExclude : List String := []
  libsToInclude : List String := []
  libsToExclude : List String := []
  addInitAtRoot : Bool := false
  aws : PackageAws := {}
deriving DecidableEq, Repr

/-- One entry of the configuration's `"stacks"` list.  The parameter data
(`templateParamsPath` contents and `"params"`) is consumed only by the
`create_stack` call, which the model records as an effect, so it is not
represented beyond the path. -/
structure StackSpec where
  name : Option String := none
  templatePath : Option String := none
  templateParamsPath : Option String := none
  region : Option String := none
deriving DecidableEq, Repr

/-- One entry of the configuration's `"staticArtifacts"` list. -/
structure StaticArtifactSpec where
  staticPath : Option String := none
  stackNameForS3Bucket : Option String := none
  outputKeyForS3Bucket : Option String := none
deriving DecidableEq, Repr

/-- The deployment configuration (`awsProfile` is
`config.get("aws",{}).get("awsProfile", None)`). -/
structure Config where
  options : Options := {}
  sourcePath : Option String := none
  libPath : Option String := none
  packages : List PackageSpec := []
  «stacks» : List StackSpec := []
  staticArtifacts : List StaticArtifactSpec := []
  awsProfile : Option String := none
deriving DecidableEq, Repr

/-! ## Run state and effects -/

/-- `self.state`: an initially empty dictionary whose only used key is
`"stacks"`; `none` models the key being absent, and per stack name the
recorded value is `{"outputs": outputs}` where `outputs` is the (possibly
`None`) return value of `getStackOutputs`. -/
structure RunState where
  «stacks» : Option (List (String × Option (List OutputKV))) := none
deriving DecidableEq, Repr

/-- Python `dict.update({k: v})` on an association list: overwrite the
existing binding or append a new one. -/
def dictUpdate (d : List (String × α)) (k : String) (v : α) :
    List (String × α) :=
  if d.any (fun p => p.1 == k) then
    d.map (fun p => if p.1 == k then (k, v) else p)
  else d ++ [(k, v)]

/-- `self.state.get("stacks",{}).get(stackName,{}).get("outputs",None)`. -/
def stacksGetOutputs (state : RunState) (stackName : String) :
    Option (List OutputKV) :=
  match state.stacks with
  | none => none
  | some d =>
    match d.find? (fun p => p.1 == stackName) with
    | none => none
    | some p => p.2

/-- Python truthiness of an `outputs` value: `None` and `[]` are falsy. -/
def outputsTruthy : Option (List OutputKV) → Bool
  | none => false
  | some l => !l.isEmpty

/-- Externally visible actions a step performs. -/
inductive Effect where
  | runTestsEff (path : String)
  | zipWrite (packageName : String)
  | zipAppend (toZip fromZip : String)
  | s3UploadFile (filePath s3Bucket s3Key : String)
  | cfCreateStack (stackName : String)
  | cfWaitCreateComplete (stackName : String)
  | cfDescribeStacks (stackName : String)
  | sleepEff (seconds : Nat)
  | setAwsProfile (profile : String)
deriving DecidableEq, Repr

/-- An exception escaping a step uncaught. -/
inductive PyErr where
  | indexError
  | raisedDesc (stackDesc : StackDesc)
deriving DecidableEq, Repr

deriving instance DecidableEq for Except

/-- What one step's execution produces: the Python return value
(`Except.error` = an uncaught exception; `.ok none` = the function fell
off its end and returned Python `None`), the run state afterwards, and
the effect trace. -/
structure StepOut where
  result : Except PyErr (Option Status)
  state : RunState
  effects : List Effect
deriving DecidableEq, Repr

/-! ## The seven pipeline steps -/

/-- `_run_tests`: flag `runUnitTests` (default on); missing `sourcePath`
is `FAILED`; otherwise the external test runner's verdict (`testsPass`)
decides `OK`/`FAILED`. -/
def _run_tests (config : Config) (state : RunState) (testsPass : Bool) :
    StepOut :=
  if !optGet config.options.runUnitTests DEFAULTS_RUN_UNIT_TESTS then
    ⟨.ok (some .SKIPPED), state, []⟩
  else if !optStrTruthy config.sourcePath then
    ⟨.ok (some .FAILED), state, []⟩
  else
    let sourcePath := config.sourcePath.getD ""
    ⟨.ok (some (if testsPass then .OK else .FAILED)), state,
      [.runTestsEff sourcePath]⟩

/-- The `for package in packages` loop of `_make_packages`, threading the
`status` variable: build the package archive; a falsy response is
`FAILED` (break); with a truthy `libPath` merge the dependency archives
and break if that failed. -/
def _make_packages_loop (sourcePath : String) (libPath : Option String)
    (walk : String → List (String × List String))
    (zipContents : String → List ZipEntry) :
    List PackageSpec → Status → List Effect → Status × List Effect
  | [], status, effs => (status, effs)
  | package :: rest, _status, effs =>
    let packageName := package.name.getD ""
    let response := (makePySrcPackage packageName sourcePath (walk sourcePath)
      package.sourceDirsToExclude package.addInitAtRoot).1
    let effs := effs ++ [.zipWrite packageName]
    if response = "" then (Status.FAILED, effs)
    else if optStrTruthy libPath then
      let libsToInclude := package.libsToInclude
      let libsToExclude := package.libsToExclude
      let added := addPackageLibs packageName [] (walk (libPath.getD ""))
        zipContents libsToExclude libsToInclude
      let effs := effs ++ added.1.2.map (fun p => Effect.zipAppend p.1 p.2)
      let status := added.2
      if status = Status.FAILED then (status, effs)
      else _make_packages_loop sourcePath libPath walk zipContents rest status effs
    else
      _make_packages_loop sourcePath libPath walk zipContents rest Status.OK effs

/-- `_make_packages`: flag `makePackages` (default on); missing
`sourcePath` is `FAILED`; otherwise the package loop. -/
def _make_packages (config : Config) (state : RunState)
    (walk : String → List (String × List String))
    (zipContents : String → List ZipEntry) : StepOut :=
  if !optGet config.options.makePackages DEFAULTS_MAKE_PACKAGES then
    ⟨.ok (some .SKIPPED), state, []⟩
  else if !optStrTruthy config.sourcePath then
    ⟨.ok (some .FAILED), state, []⟩
  else
    let r := _make_packages_loop (config.sourcePath.getD "") config.libPath
      walk zipContents config.packages Status.OK []
    ⟨.ok (some r.1), state, r.2⟩

/-- `_init_aws`: sets `AWS_PROFILE` when configured and constructs the
boto3 clients; always returns `OK`.  It has no feature flag. -/
def _init_aws (config : Config) (state : RunState) : StepOut :=
  match config.awsProfile with
  | some profile => ⟨.ok (some .OK), state, [.setAwsProfile profile]⟩
  | none => ⟨.ok (some .OK), state, []⟩

/-- The `for package in packages` loop of `_upload_packages_to_s3_bucket`:
a falsy name/bucket/key is `FAILED` (immediate return); otherwise upload. -/
def _upload_packages_loop :
    List PackageSpec → List Effect → Status × List Effect
  | [], effs => (Status.OK, effs)
  | package :: rest, effs =>
    let packageName := package.name
    let srcS3Bucket := package.aws.srcS3Bucket
    let srcS3Key := package.aws.srcS3Key
    if !(optStrTruthy packageName && optStrTruthy srcS3Bucket
        && optStrTruthy srcS3Key) then
      (Status.FAILED, effs)
    else
      _upload_packages_loop rest (effs ++
        [.s3UploadFile (packageName.getD "") (srcS3Bucket.getD "")
          (srcS3Key.getD "")])

/-- `_upload_packages_to_s3_bucket`: flag `uploadPackages` (default on). -/
def _upload_packages_to_s3_bucket (config : Config) (state : RunState) :
    StepOut :=
  if !optGet config.options.uploadPackages DEFAULTS_UPLOAD_PACKAGES then
    ⟨.ok (some .SKIPPED), state, []⟩
  else
    let r := _upload_packages_loop config.packages []
    ⟨.ok (some r.1), state, r.2⟩

/-- The `for stack in stacks` loop of `_create_stacks`: a falsy
name/templatePath/region is `FAILED` (immediate return); otherwise read
the template, create the stack and wait for completion.  When the loop
finishes, control falls off the end of the Python function, which
therefore returns `None` — modelled by `.ok none`. -/
def _create_stacks_loop : List StackSpec → List Effect →
    Except PyErr (Option Status) × List Effect
  | [], effs => (.ok none, effs)
  | stack :: rest, effs =>
    let stackName := stack.name
    let templatePath := stack.templatePath
    let region := stack.region
    if !(optStrTruthy stackName && optStrTruthy templatePath
        && optStrTruthy region) then
      (.ok (some Status.FAILED), effs)
    else
      _create_stacks_loop rest (effs ++
        [.cfCreateStack (stackName.getD ""),
         .cfWaitCreateComplete (stackName.getD "")])

/-- `_create_stacks`: flag `createStacks` (default on). -/
def _create_stacks (config : Config) (state : RunState) : StepOut :=
  if !optGet config.options.createStacks DEFAULTS_CREATE_STACKS then
    ⟨.ok (some .SKIPPED), state, []⟩
  else
    let r := _create_stacks_loop config.stacks []
    ⟨r.1, state, r.2⟩

/-- The `for stack in stacks` loop of `_collect_stack_outputs`: poll each
stack's outputs with `getStackOutputs` (the `describe_stacks` responses
for stack `n` are scripted by `describeScript n`) and record them under
the stack's name; a raise from `getStackOutputs` propagates. -/
def _collect_outputs_loop (describeScript : String → Nat → StackDesc) :
    List StackSpec → List (String × Option (List OutputKV)) → List Effect →
      Except PyErr (Option Status) ×
        List (String × Option (List OutputKV)) × List Effect
  | [], d, effs => (.ok (some Status.OK), d, effs)
  | stack :: rest, d, effs =>
    let stackName := stack.name.getD ""
    match getStackOutputs (describeScript stackName) with
    | .returned outs sleeps =>
      _collect_outputs_loop describeScript rest (dictUpdate d stackName outs)
        (effs ++ [.cfDescribeStacks stackName] ++
          List.replicate sleeps (.sleepEff AWS_COLLECT_OUTPUTS_CONFIG.SleepSeconds))
    | .raised desc sleeps =>
      (.error (.raisedDesc desc), d,
       effs ++ [.cfDescribeStacks stackName] ++
         List.replicate sleeps (.sleepEff AWS_COLLECT_OUTPUTS_CONFIG.SleepSeconds))

/-- `_collect_stack_outputs`: flag `collectStackOutputs` (default on);
sets `state["stacks"] = {}` and fills it from the loop. -/
def _collect_stack_outputs (config : Config) (state : RunState)
    (describeScript : String → Nat → StackDesc) : StepOut :=
  if !optGet config.options.collectStackOutputs DEFAULTS_COLLECT_STACK_OUTPUTS then
    ⟨.ok (some .SKIPPED), state, []⟩
  else
    let r := _collect_outputs_loop describeScript config.stacks [] []
    ⟨r.1, { «stacks» := some r.2.1 }, r.2.2⟩

/-- `uploadDirectoryToS3Bucket(s3_client, dirPath, s3Bucket)`: walks the
directory and uploads each file under the key obtained by slicing off the
first `len(dirPath)` characters of its full path and replacing `\` with
`/`.  Returns `Status.OK`. -/
def uploadDirectoryToS3Bucket (walkResult : List (String × List String))
    (dirPath s3Bucket : String) : List Effect × Status :=
  (walkResult.foldl (fun effs rootFiles =>
    rootFiles.2.foldl (fun effs fileName =>
      let full_path := pyJoin rootFiles.1 fileName
      let key := pyReplace (String.mk (full_path.data.drop dirPath.data.length))
        "\\" "/"
      effs ++ [.s3UploadFile full_path s3Bucket key]) effs) [], Status.OK)

/-- The `for artifact in staticArtifacts` loop of
`_upload_static_artifacts`: a falsy field is `FAILED`; falsy recorded
outputs (`None` or empty) mean `continue`; otherwise the bucket is the
first output whose `OutputKey` matches — indexing `[0]` into the filtered
list raises `IndexError` when nothing matches — and the static directory
is uploaded to it. -/
def _upload_static_loop (state : RunState)
    (staticWalk : String → List (String × List String)) :
    List StaticArtifactSpec → List Effect →
      Except PyErr (Option Status) × List Effect
  | [], effs => (.ok (some Status.OK), effs)
  | artifact :: rest, effs =>
    let staticPath := artifact.staticPath
    let stackNameForS3Bucket := artifact.stackNameForS3Bucket
    let outputKeyForS3Bucket := artifact.outputKeyForS3Bucket
    if !(optStrTruthy staticPath && optStrTruthy stackNameForS3Bucket
        && optStrTruthy outputKeyForS3Bucket) then
      (.ok (some Status.FAILED), effs)
    else
      let outputs := stacksGetOutputs state (stackNameForS3Bucket.getD "")
      if !outputsTruthy outputs then
        _upload_static_loop state staticWalk rest effs
      else
        let matches_ := (outputs.getD []).filter
          (fun x => x.OutputKey == outputKeyForS3Bucket.getD "")
        match matches_ with
        | [] => (.error .indexError, effs)
        | m :: _ =>
          let staticS3Bucket := pySplitLast m.OutputValue ':'
          let up := uploadDirectoryToS3Bucket (staticWalk (staticPath.getD ""))
            (staticPath.getD "") staticS3Bucket
          _upload_static_loop state staticWalk rest (effs ++ up.1)

/-- `_upload_static_artifacts`: flag `uploadStaticArtifacts`
(default off). -/
def _upload_static_artifacts (config : Config) (state : RunState)
    (staticWalk : String → List (String × List String)) : StepOut :=
  if !optGet config.options.uploadStaticArtifacts
      DEFAULTS_UPLOAD_STATIC_ARTIFACTS then
    ⟨.ok (some .SKIPPED), state, []⟩
  else
    let r := _upload_static_loop state staticWalk config.staticArtifacts []
    ⟨r.1, state, r.2⟩

/-! ## The pipeline engine and the driver

`deploy` iterates over the step list; each `step.apply()` return value is
one scripted element (`Option Status`, since a step can return Python
`None`).  After each step, `status == Status.FAILED` breaks the loop; the
final statement is `return Status.OK` unconditionally. -/

/-- The names of the seven steps `_get_deploy_steps` builds, in order. -/
def deploy_step_names : List String :=
  ["run_tests", "make_packages", "init_aws", "upload_packages_to_s3",
   "create_stacks", "collect_stack_outputs", "upload_static_artifacts"]

/-- The `for step in steps` loop of `deploy`, returning the indices of
the steps that were applied: a step is applied, then `Status.FAILED`
breaks. -/
def deployLoop : List (Option Status) → Nat → List Nat
  | [], _ => []
  | r :: rest, i =>
    i :: (if r = some Status.FAILED then [] else deployLoop rest (i + 1))

/-- `deploy(self)`: runs the loop and then — whatever happened — executes
`return Status.OK`.  Returns the Python return value and the applied
step indices. -/
def deploy (stepResults : List (Option Status)) : Status × List Nat :=
  (Status.OK, deployLoop stepResults 0)

/-- The tail of `example.py`'s `main`:
`return 0 if status == Status.OK else 1` applied to `expert.deploy()`. -/
def exampleMainExit (stepResults : List (Option Status)) : Nat :=
  if (deploy stepResults).1 = Status.OK then 0 else 1

/-! ## Spec-side definitions (for comparison with the code)

These two follow the specification's words, not the source, and exist only
to be compared against the source-derived definitions above. -/

/-- Modelled from the spec: the `/`-separated path segments of a
directory path, for the spec's "any path segment matches" exclusion
test. -/
def specPathSegments (dir : String) : List String :=
  (pySplitAux '/' dir.data []).map String.mk

/-- Modelled from the spec: a directory is excluded when one of its path
segments is literally one of the excluded names. -/
def specSegmentExcluded (dir : String) (names : List String) : Bool :=
  (specPathSegments dir).any (fun seg => names.contains seg)

/-- Modelled from the spec: a file's "tree-relative path" — its full path
with the source-root prefix removed. -/
def specRelativePath (root fullPath : String) : String :=
  if root.data.isPrefixOf fullPath.data then
    String.mk (fullPath.data.drop root.data.length)
  else fullPath

/-! ## Concrete scripts and configurations used by witnesses -/

/-- A scripted provisioner that reports `CREATE_IN_PROGRESS` forever. -/
def scriptC2 : Nat → StackDesc :=
  fun _ => ⟨AWS_CLOUDFORMATION_CREATE_IN_PROGRESS, []⟩

/-- The outputs attached to the `Complete` response of the
`[InProgress, InProgress, Complete]` script. -/
def c7Outputs : List OutputKV :=
  [⟨"BucketCreatedInStackBucketArn", "arn:aws:s3:::static-bucket"⟩]

/-- The scripted status sequence `[InProgress, InProgress, Complete]`
(the stack stays complete from the third response on). -/
def c7Script : Nat → StackDesc := fun n =>
  if n < 2 then ⟨AWS_CLOUDFORMATION_CREATE_IN_PROGRESS, []⟩
  else ⟨AWS_CLOUDFORMATION_CREATE_COMPLETE, c7Outputs⟩

/-- A configuration with every feature flag explicitly off. -/
def cfgAllOff : Config :=
  { options :=
      { runUnitTests := some false, makePackages := some false,
        uploadPackages := some false, createStacks := some false,
        collectStackOutputs := some false,
        uploadStaticArtifacts := some false } }

/-- A static-artifact spec whose output key matches no recorded output. -/
def artC10 : StaticArtifactSpec :=
  ⟨some "static/", some "stack-1", some "MissingKey"⟩

/-- A configuration enabling static-artifact upload with `artC10` as its
only artifact spec. -/
def cfgC10 : Config :=
  { options := { uploadStaticArtifacts := some true },
    staticArtifacts := [artC10] }

/-- A run state recording one stack with one output whose key is not
`MissingKey`. -/
def stC10 : RunState :=
  ⟨some [("stack-1", some [⟨"OtherKey", "arn:aws:s3:::b"⟩])]⟩

/-- The library files `addPackageLibs`'s loop does not skip: name ends in
`.zip` and passes the include/exclude test. -/
def libSurvives (excludeLibs includeLibs : List String) (file : String) : Bool :=
  pyEndsWith file ZIPFILE_EXTENSION && !libSkipped excludeLibs includeLibs file

/-! # Theorems -/

/-! ## Helper lemmas -/

/-- Every index the `deploy` loop applies lies beyond no earlier `FAILED`
result: an applied index `start + m` means none of the first `m` scripted
results was `FAILED`. -/
theorem deployLoop_mem {stepResults : List (Option Status)} {start j : Nat}
    (hj : j ∈ deployLoop stepResults start) :
    ∃ m, j = start + m ∧
      ∀ k, k < m → stepResults[k]? ≠ some (some Status.FAILED) := by
  induction stepResults generalizing start with
  | nil => simp [deployLoop] at hj
  | cons r rest ih =>
    rw [deployLoop] at hj
    rcases List.mem_cons.mp hj with h | h
    · exact ⟨0, by omega, fun k hk => absurd hk (by omega)⟩
    · by_cases hr : r = some Status.FAILED
      · simp [hr] at h
      · simp only [if_neg hr] at h
        obtain ⟨m, hm, hall⟩ := ih h
        refine ⟨m + 1, by omega, fun k hk => ?_⟩
        match k with
        | 0 => simpa using hr
        | k + 1 => simpa using hall k (by omega)

/-- A guarded-append `foldl` is an append of the filtered, mapped list. -/
theorem foldl_if_append {α β : Type} (c : α → Bool) (e : α → β) :
    ∀ (files : List α) (zh : List β),
      files.foldl (fun zh file => if c file then zh ++ [e file] else zh) zh
        = zh ++ (files.filter c).map e := by
  intro files
  induction files with
  | nil => intro zh; simp
  | cons f rest ih =>
    intro zh
    by_cases hc : c f
    · simp [List.foldl_cons, hc, ih]
    · simp [List.foldl_cons, hc, ih]

/-- When no scripted status within the poll budget is `CREATE_COMPLETE`,
the loop (entered at iteration `i` with `elapsedSeconds = 5 * i` and `i`
sleeps so far, `i + n = 10`) never produces a success result and sleeps at
most 10 times in total. -/
theorem gsoAux_never_complete (script : Nat → StackDesc) :
    ∀ (n i : Nat), i + n = 10 →
    (∀ j, AWS_COLLECT_OUTPUTS_CONFIG.SleepSeconds * j
        < AWS_COLLECT_OUTPUTS_CONFIG.Timeout →
      (script j).StackStatus ≠ AWS_CLOUDFORMATION_CREATE_COMPLETE) →
    (getStackOutputsAux script i (5 * i) i).isSuccess = false
    ∧ (getStackOutputsAux script i (5 * i) i).sleeps ≤ 10 := by
  intro n
  induction n with
  | zero =>
    intro i hi hnc
    have hi10 : i = 10 := by omega
    subst hi10
    rw [getStackOutputsAux]
    simp [AWS_COLLECT_OUTPUTS_CONFIG, GsoResult.isSuccess, GsoResult.sleeps]
  | succ n ih =>
    intro i hi hnc
    have hlt : 5 * i < 50 := by omega
    have hcomp := hnc i (by simpa [AWS_COLLECT_OUTPUTS_CONFIG] using hlt)
    rw [getStackOutputsAux]
    simp only [AWS_COLLECT_OUTPUTS_CONFIG, if_pos hlt]
    by_cases hip : (script i).StackStatus = AWS_CLOUDFORMATION_CREATE_IN_PROGRESS
    · have := ih (i + 1) (by omega) hnc
      rw [if_neg hcomp, if_pos hip]
      have heq : 5 * i + 5 = 5 * (i + 1) := by ring
      simpa [AWS_COLLECT_OUTPUTS_CONFIG, heq] using this
    · simp [if_neg hcomp, if_neg hip, GsoResult.isSuccess, GsoResult.sleeps]
      omega

/-- The walk loop of `makePySrcPackage` appends exactly one entry per
surviving file, in walk order. -/
theorem makePySrcPackageLoop_eq (pySrcPath : String) (excludeDirs : List String) :
    ∀ (walk : List (String × List String)) (zh : List SrcZipEntry),
      makePySrcPackageLoop pySrcPath excludeDirs walk zh
        = zh ++ walk.flatMap (fun rf =>
            (rf.2.filter (filterFunc excludeDirs rf.1)).map (fun file =>
              ⟨pyJoin (pyReplace rf.1 pySrcPath "") file, pyJoin rf.1 file⟩)) := by
  intro walk
  induction walk with
  | nil => intro zh; simp [makePySrcPackageLoop]
  | cons rf rest ih =>
    intro zh
    obtain ⟨root, files⟩ := rf
    rw [makePySrcPackageLoop]
    rw [foldl_if_append (filterFunc excludeDirs root)
      (fun file => (⟨pyJoin (pyReplace root pySrcPath "") file,
        pyJoin root file⟩ : SrcZipEntry)) files zh]
    rw [ih]
    simp

/-- Folding `writestr` of stamped entries over a source archive appends
its stamped entries in order. -/
theorem foldl_writestr_eq :
    ∀ (zipFileAppendFrom z1 : List ZipEntry),
      zipFileAppendFrom.foldl (fun z1 t => writestr z1 (stampZipInfo t)) z1
        = z1 ++ zipFileAppendFrom.map stampZipInfo := by
  intro zipFileAppendFrom
  induction zipFileAppendFrom with
  | nil => intro z1; simp
  | cons t rest ih =>
    intro z1
    simp only [List.foldl_cons, List.map_cons]
    rw [ih]
    simp [writestr]

/-- `appendZipToZip` appends the stamped entries of the source archive to
the target archive. -/
theorem appendZipToZip_eq (zipFileAppendTo zipFileAppendFrom : List ZipEntry) :
    (appendZipToZip zipFileAppendTo zipFileAppendFrom).1
      = zipFileAppendTo ++ zipFileAppendFrom.map stampZipInfo := by
  unfold appendZipToZip
  rw [foldl_writestr_eq]

/-- The per-directory file loop of `addPackageLibs` appends, for each
surviving library file, its stamped entries and one append record. -/
theorem libs_foldl_eq (zipPackageName root : String)
    (zipContents : String → List ZipEntry) (excludeLibs includeLibs : List String) :
    ∀ (files : List String) (target : List ZipEntry)
      (appends : List (String × String)),
      files.foldl (fun acc file =>
        if !pyEndsWith file ZIPFILE_EXTENSION then acc
        else if libSkipped excludeLibs includeLibs file then acc
        else
          let zipFileAppendFrom := pyJoin root file
          ((appendZipToZip acc.1 (zipContents zipFileAppendFrom)).1,
           acc.2 ++ [(zipPackageName, zipFileAppendFrom)])) (target, appends)
      = (target ++ (files.filter (libSurvives excludeLibs includeLibs)).flatMap
            (fun f => (zipContents (pyJoin root f)).map stampZipInfo),
         appends ++ (files.filter (libSurvives excludeLibs includeLibs)).map
            (fun f => (zipPackageName, pyJoin root f))) := by
  intro files
  induction files with
  | nil => intro target appends; simp
  | cons f rest ih =>
    intro target appends
    by_cases hz : pyEndsWith f ZIPFILE_EXTENSION
    · by_cases hs : libSkipped excludeLibs includeLibs f
      · have hsur : libSurvives excludeLibs includeLibs f = false := by
          simp [libSurvives, hz, hs]
        simp only [List.foldl_cons, hz, hs, Bool.not_true, if_false, if_true,
          List.filter_cons, hsur]
        rw [ih]
        simp
      · have hsur : libSurvives excludeLibs includeLibs f = true := by
          simp [libSurvives, hz, hs]
        simp only [List.foldl_cons, hz, hs, Bool.not_true, if_false,
          List.filter_cons, hsur, if_true]
        rw [ih]
        rw [appendZipToZip_eq]
        simp
    · have hsur : libSurvives excludeLibs includeLibs f = false := by
        simp [libSurvives, hz]
      simp only [List.foldl_cons, hz, Bool.not_false, if_true,
        List.filter_cons, hsur]
      rw [ih]
      simp

/-- The walk loop of `addPackageLibs`, characterised. -/
theorem addPackageLibsLoop_eq (zipPackageName : String)
    (zipContents : String → List ZipEntry) (excludeLibs includeLibs : List String) :
    ∀ (libWalk : List (String × List String)) (target : List ZipEntry)
      (appends : List (String × String)),
      addPackageLibsLoop zipPackageName zipContents excludeLibs includeLibs
          libWalk target appends
        = (target ++ libWalk.flatMap (fun rf =>
            (rf.2.filter (libSurvives excludeLibs includeLibs)).flatMap
              (fun f => (zipContents (pyJoin rf.1 f)).map stampZipInfo)),
           appends ++ libWalk.flatMap (fun rf =>
            (rf.2.filter (libSurvives excludeLibs includeLibs)).map
              (fun f => (zipPackageName, pyJoin rf.1 f)))) := by
  intro libWalk
  induction libWalk with
  | nil => intro target appends; simp [addPackageLibsLoop]
  | cons rf rest ih =>
    intro target appends
    obtain ⟨root, files⟩ := rf
    rw [addPackageLibsLoop]
    rw [libs_foldl_eq zipPackageName root zipContents excludeLibs includeLibs
      files target appends]
    simp [ih]

/-! ## Claim theorems -/

/-- C1: the claim says a `Failed` step makes `deploy` report the overall
run as Failed and the process exit non-zero.  The code does the opposite:
`deploy`'s final statement is `return Status.OK` regardless of the loop
having broken on a failed step, so with scripted step results
`[OK, FAILED]` both steps run, the pipeline halts, yet `deploy` returns
`Status.OK` and `main` returns exit code 0. -/
theorem C1_deploy_reports_OK_despite_failure :
    (deploy [some Status.OK, some Status.FAILED]).1 = Status.OK
    ∧ (deploy [some Status.OK, some Status.FAILED]).2 = [0, 1]
    ∧ exampleMainExit [some Status.OK, some Status.FAILED] = 0 := by
  decide

/-- C2 (amended): for every scripted status sequence in which
`CREATE_COMPLETE` is never observed within the 50-second budget,
`getStackOutputs` never returns a success result (an outputs list) and
performs at most `Timeout / SleepSeconds = 10` sleep intervals (so it
does not hang).  It does not, however, report a timeout failure: on
budget exhaustion it returns `None` without raising (see the
counterexample). -/
theorem C2_no_success_within_budget (script : Nat → StackDesc)
    (hnc : ∀ j, AWS_COLLECT_OUTPUTS_CONFIG.SleepSeconds * j
        < AWS_COLLECT_OUTPUTS_CONFIG.Timeout →
      (script j).StackStatus ≠ AWS_CLOUDFORMATION_CREATE_COMPLETE) :
    (getStackOutputs script).isSuccess = false
    ∧ AWS_COLLECT_OUTPUTS_CONFIG.SleepSeconds * (getStackOutputs script).sleeps
        ≤ AWS_COLLECT_OUTPUTS_CONFIG.Timeout := by
  have h := gsoAux_never_complete script 10 0 rfl hnc
  rw [getStackOutputs]
  refine ⟨by simpa using h.1, ?_⟩
  have h2 : (getStackOutputsAux script 0 (5 * 0) 0).sleeps ≤ 10 := h.2
  simp only [AWS_COLLECT_OUTPUTS_CONFIG] at h2 ⊢
  simp at h2 ⊢
  omega

/-- C2 counterexample: on the script that reports `CREATE_IN_PROGRESS`
forever — so `CREATE_COMPLETE` is never reached within the budget —
`getStackOutputs` does not report any failure: it returns normally (the
`stackOutputs` variable is still Python `None`) after 10 sleeps, raising
nothing. -/
theorem C2_counterexample :
    ((List.range 10).all (fun j =>
      (scriptC2 j).StackStatus != AWS_CLOUDFORMATION_CREATE_COMPLETE)) = true
    ∧ getStackOutputs scriptC2 = .returned none 10
    ∧ (getStackOutputs scriptC2).isRaised = false := by
  have h2 : getStackOutputs scriptC2 = .returned none 10 := by
    simp [getStackOutputs, getStackOutputsAux, scriptC2,
      AWS_COLLECT_OUTPUTS_CONFIG, AWS_CLOUDFORMATION_CREATE_COMPLETE,
      AWS_CLOUDFORMATION_CREATE_IN_PROGRESS]
  exact ⟨by decide, h2, by rw [h2]; rfl⟩

/-- C2 witness: the amended theorem applied to the always-in-progress
script. -/
theorem C2_no_success_within_budget_witness :
    ((List.range 10).all (fun j =>
      (scriptC2 j).StackStatus != AWS_CLOUDFORMATION_CREATE_COMPLETE)) = true
    ∧ (getStackOutputs scriptC2).isSuccess = false
    ∧ AWS_COLLECT_OUTPUTS_CONFIG.SleepSeconds * (getStackOutputs scriptC2).sleeps
        ≤ AWS_COLLECT_OUTPUTS_CONFIG.Timeout :=
  ⟨by decide,
    (C2_no_success_within_budget scriptC2 (fun j hj => by
      simp [scriptC2, AWS_CLOUDFORMATION_CREATE_IN_PROGRESS,
        AWS_CLOUDFORMATION_CREATE_COMPLETE])).1,
    (C2_no_success_within_budget scriptC2 (fun j hj => by
      simp [scriptC2, AWS_CLOUDFORMATION_CREATE_IN_PROGRESS,
        AWS_CLOUDFORMATION_CREATE_COMPLETE])).2⟩

/-- C3 counterexample: the claim's segment-wise exclusion test disagrees
with the code.  (a) The file `util.py` under directory `src/contests` is
excluded by the code (the archive is empty) although no path segment of
`src/contests` equals `tests` or `__pycache__` and the file is not
bytecode — the code tests substring containment, and `tests` is a
substring of `contests`.  (b) With source root `ab/` and directory
`ab/xab/y`, the produced entry is stored at `xy/f.py` — every occurrence
of `ab/` is deleted by `root.replace(pySrcPath, '')` — which is not the
tree-relative path `xab/y/f.py`. -/
theorem C3_counterexample :
    specSegmentExcluded "src/contests"
        (PYSRC_DIRS_ALWAYS_EXCLUDE ++ ([] : List String)) = false
    ∧ pyEndsWith "util.py" COMPILED_PYTHON_EXTENSION = false
    ∧ (makePySrcPackage "p.zip" "src/" [("src/contests", ["util.py"])]
        [] false).2 = []
    ∧ (makePySrcPackage "p.zip" "ab/" [("ab/xab/y", ["f.py"])] [] false).2
        = [⟨"xy/f.py", "ab/xab/y/f.py"⟩]
    ∧ specRelativePath "ab/" "ab/xab/y/f.py" = "xab/y/f.py"
    ∧ ("xy/f.py" : String) ≠ "xab/y/f.py" := by
  refine ⟨by decide, by decide, by decide, ?_, by decide, by decide⟩
  simp [makePySrcPackage, makePySrcPackageLoop, filterFunc,
    PYSRC_DIRS_ALWAYS_EXCLUDE, pyIn, strIn, pyEndsWith,
    COMPILED_PYTHON_EXTENSION, pyJoin, pyReplace, pyReplaceAux]
  decide

/-- C3 (amended): `makePySrcPackage` (root-marker option off) writes
exactly one entry per surviving file, in walk order, stored at
`os.path.join(root.replace(pySrcPath, ''), file)`; and a file survives
iff no name of the always-excluded set union the spec's exclude list
occurs as a substring of the file's directory path, and the file name
does not end in `.pyc`. -/
theorem C3_substring_filter_and_replace_naming (zipPackageName pySrcPath : String)
    (walk : List (String × List String)) (excludeDirs : List String) :
    ((makePySrcPackage zipPackageName pySrcPath walk excludeDirs false).2
      = walk.flatMap (fun rf =>
          (rf.2.filter (filterFunc excludeDirs rf.1)).map (fun file =>
            ⟨pyJoin (pyReplace rf.1 pySrcPath "") file, pyJoin rf.1 file⟩)))
    ∧ (∀ root file, filterFunc excludeDirs root file = true ↔
        ((PYSRC_DIRS_ALWAYS_EXCLUDE ++ excludeDirs).all
            (fun fldName => !pyIn fldName root) = true
          ∧ pyEndsWith file COMPILED_PYTHON_EXTENSION = false)) := by
  constructor
  · rw [makePySrcPackage]
    simpa using makePySrcPackageLoop_eq pySrcPath excludeDirs walk []
  · intro root file
    rw [filterFunc]
    by_cases h1 : (PYSRC_DIRS_ALWAYS_EXCLUDE ++ excludeDirs).any
        (fun fldName => pyIn fldName root)
    · simp only [h1, if_true]
      constructor
      · intro hfalse; exact absurd hfalse (by simp)
      · rintro ⟨hall, -⟩
        obtain ⟨fldName, hmem, hin⟩ := List.any_eq_true.mp h1
        have := List.all_eq_true.mp hall fldName hmem
        simp [hin] at this
    · simp only [h1, if_false]
      have hall : (PYSRC_DIRS_ALWAYS_EXCLUDE ++ excludeDirs).all
          (fun fldName => !pyIn fldName root) = true := by
        rw [List.all_eq_true]
        intro fldName hmem
        simp only [List.any_eq_true, not_exists] at h1
        push_neg at h1
        simp [h1 fldName hmem]
      by_cases h2 : pyEndsWith file COMPILED_PYTHON_EXTENSION
      · simp [h2, hall]
      · simp [h2, hall]

/-- C4: the claim says every step returns one of the three `Status`
values.  `_create_stacks` contradicts it (and its own `-> Status`
annotation): when the `createStacks` flag is on, the function has no
return statement after its loop, so it falls off the end and returns
Python `None` — both with an empty stack list and after successfully
provisioning a fully-specified stack. -/
theorem C4_create_stacks_returns_none :
    (_create_stacks {} {}).result = .ok none
    ∧ (_create_stacks { «stacks» := [⟨some "stack-1", some "template.json",
        none, some "eu-west-1"⟩] } {}).result = .ok none := by
  decide

/-- C5: once a scripted step result is `FAILED`, no later step index is
applied by the `deploy` loop. -/
theorem C5_halt_on_first_failed (stepResults : List (Option Status)) (i j : Nat)
    (hi : stepResults[i]? = some (some Status.FAILED)) (hij : i < j) :
    j ∉ (deploy stepResults).2 := by
  intro hj
  obtain ⟨m, hm, hall⟩ := deployLoop_mem (by simpa [deploy] using hj)
  exact hall i (by omega) hi

/-- C5 witness: with scripted results `[OK, OK, FAILED, OK]` the fourth
step (index 3) is never applied. -/
theorem C5_halt_on_first_failed_witness :
    ([some Status.OK, some Status.OK, some Status.FAILED,
        some Status.OK][2]? = some (some Status.FAILED))
    ∧ 2 < 3
    ∧ 3 ∉ (deploy [some Status.OK, some Status.OK, some Status.FAILED,
        some Status.OK]).2 :=
  ⟨by decide, by decide,
    C5_halt_on_first_failed _ 2 3 (by decide) (by decide)⟩

/-- C6: whenever a step's feature flag evaluates to off, the step returns
`SKIPPED`, leaves the run state unchanged, and produces no effect — for
each of the six flagged steps. -/
theorem C6_flag_off_skips (config : Config) (state : RunState)
    (testsPass : Bool) (walk : String → List (String × List String))
    (zipContents : String → List ZipEntry)
    (describeScript : String → Nat → StackDesc)
    (staticWalk : String → List (String × List String)) :
    (optGet config.options.runUnitTests DEFAULTS_RUN_UNIT_TESTS = false →
      _run_tests config state testsPass = ⟨.ok (some .SKIPPED), state, []⟩)
    ∧ (optGet config.options.makePackages DEFAULTS_MAKE_PACKAGES = false →
      _make_packages config state walk zipContents
        = ⟨.ok (some .SKIPPED), state, []⟩)
    ∧ (optGet config.options.uploadPackages DEFAULTS_UPLOAD_PACKAGES = false →
      _upload_packages_to_s3_bucket config state
        = ⟨.ok (some .SKIPPED), state, []⟩)
    ∧ (optGet config.options.createStacks DEFAULTS_CREATE_STACKS = false →
      _create_stacks config state = ⟨.ok (some .SKIPPED), state, []⟩)
    ∧ (optGet config.options.collectStackOutputs
        DEFAULTS_COLLECT_STACK_OUTPUTS = false →
      _collect_stack_outputs config state describeScript
        = ⟨.ok (some .SKIPPED), state, []⟩)
    ∧ (optGet config.options.uploadStaticArtifacts
        DEFAULTS_UPLOAD_STATIC_ARTIFACTS = false →
      _upload_static_artifacts config state staticWalk
        = ⟨.ok (some .SKIPPED), state, []⟩) :=
  ⟨fun h => by simp [_run_tests, h],
   fun h => by simp [_make_packages, h],
   fun h => by simp [_upload_packages_to_s3_bucket, h],
   fun h => by simp [_create_stacks, h],
   fun h => by simp [_collect_stack_outputs, h],
   fun h => by simp [_upload_static_artifacts, h]⟩

/-- C6 witness: the six flag-off conclusions at the all-off
configuration. -/
theorem C6_flag_off_skips_witness :
    (optGet cfgAllOff.options.runUnitTests DEFAULTS_RUN_UNIT_TESTS = false
      ∧ optGet cfgAllOff.options.makePackages DEFAULTS_MAKE_PACKAGES = false
      ∧ optGet cfgAllOff.options.uploadPackages DEFAULTS_UPLOAD_PACKAGES = false
      ∧ optGet cfgAllOff.options.createStacks DEFAULTS_CREATE_STACKS = false
      ∧ optGet cfgAllOff.options.collectStackOutputs
          DEFAULTS_COLLECT_STACK_OUTPUTS = false
      ∧ optGet cfgAllOff.options.uploadStaticArtifacts
          DEFAULTS_UPLOAD_STATIC_ARTIFACTS = false)
    ∧ _run_tests cfgAllOff ⟨none⟩ true = ⟨.ok (some .SKIPPED), ⟨none⟩, []⟩
    ∧ _make_packages cfgAllOff ⟨none⟩ (fun _ => []) (fun _ => [])
        = ⟨.ok (some .SKIPPED), ⟨none⟩, []⟩
    ∧ _upload_packages_to_s3_bucket cfgAllOff ⟨none⟩
        = ⟨.ok (some .SKIPPED), ⟨none⟩, []⟩
    ∧ _create_stacks cfgAllOff ⟨none⟩ = ⟨.ok (some .SKIPPED), ⟨none⟩, []⟩
    ∧ _collect_stack_outputs cfgAllOff ⟨none⟩ (fun _ _ => ⟨"", []⟩)
        = ⟨.ok (some .SKIPPED), ⟨none⟩, []⟩
    ∧ _upload_static_artifacts cfgAllOff ⟨none⟩ (fun _ => [])
        = ⟨.ok (some .SKIPPED), ⟨none⟩, []⟩ := by
  have h := C6_flag_off_skips cfgAllOff ⟨none⟩ true (fun _ => [])
    (fun _ => []) (fun _ _ => ⟨"", []⟩) (fun _ => [])
  exact ⟨⟨rfl, rfl, rfl, rfl, rfl, rfl⟩, h.1 rfl, h.2.1 rfl, h.2.2.1 rfl,
    h.2.2.2.1 rfl, h.2.2.2.2.1 rfl, h.2.2.2.2.2 rfl⟩

/-- C7: on the scripted sequence `[InProgress, InProgress, Complete]`
with outputs attached to the complete response, `getStackOutputs`
returns exactly those outputs after exactly two sleep intervals of
5 seconds, well within the 50-second budget. -/
theorem C7_scripted_completion_two_sleeps :
    getStackOutputs c7Script = .returned (some c7Outputs) 2
    ∧ AWS_COLLECT_OUTPUTS_CONFIG.SleepSeconds = 5
    ∧ AWS_COLLECT_OUTPUTS_CONFIG.SleepSeconds * 2
        < AWS_COLLECT_OUTPUTS_CONFIG.Timeout := by
  refine ⟨?_, rfl, by decide⟩
  simp [getStackOutputs, getStackOutputsAux, c7Script,
    AWS_COLLECT_OUTPUTS_CONFIG, AWS_CLOUDFORMATION_CREATE_COMPLETE,
    AWS_CLOUDFORMATION_CREATE_IN_PROGRESS]

/-- C8: whenever the poll loop, within its budget, observes a status that
is neither `CREATE_COMPLETE` nor `CREATE_IN_PROGRESS`, it raises the raw
stack description at once — it neither returns a success value nor keeps
polling.  (`getStackOutputs script` is `getStackOutputsAux script 0 0 0`.) -/
theorem C8_unexpected_status_raises (script : Nat → StackDesc)
    (i elapsedSeconds sleeps : Nat)
    (hb : elapsedSeconds < AWS_COLLECT_OUTPUTS_CONFIG.Timeout)
    (hnc : (script i).StackStatus ≠ AWS_CLOUDFORMATION_CREATE_COMPLETE)
    (hnp : (script i).StackStatus ≠ AWS_CLOUDFORMATION_CREATE_IN_PROGRESS) :
    getStackOutputsAux script i elapsedSeconds sleeps
      = .raised (script i) sleeps := by
  rw [getStackOutputsAux]
  simp only [if_pos hb]
  rw [if_neg hnc, if_neg hnp]

/-- C8 witness: a `ROLLBACK_COMPLETE` status observed at the very first
poll raises immediately. -/
theorem C8_unexpected_status_raises_witness :
    0 < AWS_COLLECT_OUTPUTS_CONFIG.Timeout
    ∧ ("ROLLBACK_COMPLETE" : String) ≠ AWS_CLOUDFORMATION_CREATE_COMPLETE
    ∧ ("ROLLBACK_COMPLETE" : String) ≠ AWS_CLOUDFORMATION_CREATE_IN_PROGRESS
    ∧ getStackOutputsAux (fun _ => ⟨"ROLLBACK_COMPLETE", []⟩) 0 0 0
        = .raised ⟨"ROLLBACK_COMPLETE", []⟩ 0 :=
  ⟨by decide, by decide, by decide,
    C8_unexpected_status_raises (fun _ => ⟨"ROLLBACK_COMPLETE", []⟩) 0 0 0
      (by decide) (by decide) (by decide)⟩

/-- C9: the merge is append-only: the target archive's prior entries are
preserved unchanged (not de-duplicated), followed by, for each surviving
library archive (`.zip` name passing the include/exclude test) in walk
order, every entry of that archive; each appended entry keeps its name
and content and carries `create_system = 3` (Unix, a case-sensitive
filesystem) and `external_attr = 0o777 << 16` (read/write/execute for
owner, group and other). -/
theorem C9_append_only_merge (zipPackageName : String) (target : List ZipEntry)
    (libWalk : List (String × List String))
    (zipContents : String → List ZipEntry)
    (excludeLibs includeLibs : List String) :
    ((addPackageLibs zipPackageName target libWalk zipContents excludeLibs
        includeLibs).1.1
      = target ++ libWalk.flatMap (fun rf =>
          (rf.2.filter (libSurvives excludeLibs includeLibs)).flatMap
            (fun f => (zipContents (pyJoin rf.1 f)).map stampZipInfo)))
    ∧ (∀ t : ZipEntry, (stampZipInfo t).filename = t.filename
        ∧ (stampZipInfo t).content = t.content
        ∧ (stampZipInfo t).create_system = 3
        ∧ (stampZipInfo t).external_attr = 0o777 <<< 16)
    ∧ (addPackageLibs zipPackageName target libWalk zipContents excludeLibs
        includeLibs).2 = Status.OK := by
  refine ⟨?_, fun t => ⟨rfl, rfl, rfl, rfl⟩, rfl⟩
  show (addPackageLibsLoop zipPackageName zipContents excludeLibs includeLibs
    libWalk target []).1 = _
  rw [addPackageLibsLoop_eq]

/-- C10: a static-artifact spec whose referenced stack has recorded,
non-empty outputs containing no entry with the spec's output key makes
`_upload_static_artifacts` raise an uncaught `IndexError` (the `[0]`
index into the empty filtered list) — it neither returns a step result
nor skips the spec. -/
theorem C10_missing_output_key_raises (config : Config) (state : RunState)
    (staticWalk : String → List (String × List String))
    (artifact : StaticArtifactSpec) (rest : List StaticArtifactSpec)
    (outs : List OutputKV)
    (hflag : optGet config.options.uploadStaticArtifacts
      DEFAULTS_UPLOAD_STATIC_ARTIFACTS = true)
    (harts : config.staticArtifacts = artifact :: rest)
    (hf1 : optStrTruthy artifact.staticPath = true)
    (hf2 : optStrTruthy artifact.stackNameForS3Bucket = true)
    (hf3 : optStrTruthy artifact.outputKeyForS3Bucket = true)
    (houts : stacksGetOutputs state (artifact.stackNameForS3Bucket.getD "")
      = some outs)
    (hne : outs ≠ [])
    (hnokey : ∀ o ∈ outs,
      o.OutputKey ≠ artifact.outputKeyForS3Bucket.getD "") :
    (_upload_static_artifacts config state staticWalk).result
      = .error .indexError := by
  rw [_upload_static_artifacts, if_neg (by simp [hflag])]
  rw [harts]
  rw [_upload_static_loop]
  have htr : outputsTruthy (some outs) = true := by
    simp [outputsTruthy, hne]
  have hfil : outs.filter
      (fun x => x.OutputKey == artifact.outputKeyForS3Bucket.getD "") = [] := by
    rw [List.filter_eq_nil_iff]
    intro o ho
    simpa using hnokey o ho
  simp only [hf1, hf2, hf3, Bool.and_true, Bool.and_self, Bool.not_true,
    Bool.true_and, if_false, houts, htr, Option.getD_some, hfil]
  simp

/-- C10 witness: one recorded output `OtherKey` and a spec asking for
`MissingKey` raise `IndexError`. -/
theorem C10_missing_output_key_raises_witness :
    optGet cfgC10.options.uploadStaticArtifacts
        DEFAULTS_UPLOAD_STATIC_ARTIFACTS = true
    ∧ cfgC10.staticArtifacts = [artC10]
    ∧ optStrTruthy artC10.staticPath = true
    ∧ optStrTruthy artC10.stackNameForS3Bucket = true
    ∧ optStrTruthy artC10.outputKeyForS3Bucket = true
    ∧ stacksGetOutputs stC10 (artC10.stackNameForS3Bucket.getD "")
        = some [⟨"OtherKey", "arn:aws:s3:::b"⟩]
    ∧ ([⟨"OtherKey", "arn:aws:s3:::b"⟩] : List OutputKV) ≠ []
    ∧ (_upload_static_artifacts cfgC10 stC10 (fun _ => [])).result
        = .error .indexError :=
  ⟨rfl, rfl, by decide, by decide, by decide, by decide, by decide,
    C10_missing_output_key_raises cfgC10 stC10 (fun _ => []) artC10 []
      [⟨"OtherKey", "arn:aws:s3:::b"⟩] rfl rfl (by decide) (by decide)
      (by decide) (by decide) (by decide) (by decide)⟩

end AwsDeploy
